import Mathlib

/-!
Verification of the tool-execution orchestration core of the
react-ai-agent-chat-sdk repository (src/tool-execution.ts).

The embedding models:
- ToolExecutionConfig (timeoutMs, retries, retryDelayMs);
- JavaScript Error values as JsError, with the error class recorded so that
  the instanceof ToolTimeoutError test and constructor.name are faithful;
- an asynchronous tool operation as a per-attempt settlement behavior
  (OpBehavior): it either settles at some time with an outcome, or never
  settles;
- executeWithTimeout as the race between the settlement and the deadline
  timer: the operation wins exactly when it settles strictly before the
  deadline, otherwise the timer rejection is observed (the timer is
  registered before the operation is invoked, so it wins ties);
- executeWithRetry as a trace-producing function recording the final
  result, the number of invocations of the operation, and the list of
  backoff delays awaited, in order;
- wrapToolWithTimeoutRetry producing a tool whose execute never fails:
  it yields either the success value or a ToolErrorSentinel record.
-/

namespace ToolExec

/-- Config record from src/tool-execution.ts lines 1-5. -/
structure ToolExecutionConfig where
  timeoutMs : Nat
  retries : Nat
  retryDelayMs : Nat
deriving DecidableEq, Repr

/-- The JavaScript class of a thrown Error value: the two classes declared in
src/tool-execution.ts, or any other Error class identified by its
constructor name. -/
inductive ErrorClass where
  | toolTimeout
  | toolRetryExhausted
  | generic (name : String)
deriving DecidableEq, Repr

/-- constructor.name of an error of this class. -/
def ErrorClass.ctorName : ErrorClass → String
  | .toolTimeout => "ToolTimeoutError"
  | .toolRetryExhausted => "ToolRetryExhaustedError"
  | .generic n => n

/-- A JavaScript Error value: its class, its message, and its cause (set by
ToolRetryExhaustedError, lines 14-20). -/
inductive JsError where
  | mk (cls : ErrorClass) (message : String) (cause : Option JsError)

def JsError.cls : JsError → ErrorClass
  | .mk c _ _ => c

def JsError.message : JsError → String
  | .mk _ m _ => m

def JsError.cause : JsError → Option JsError
  | .mk _ _ c => c

/-- new ToolTimeoutError(toolName, timeout): src/tool-execution.ts lines 7-12. -/
def ToolTimeoutError.make (toolName : String) (timeout : Nat) : JsError :=
  JsError.mk ErrorClass.toolTimeout
    ("Tool \"" ++ toolName ++ "\" timed out after " ++ toString timeout ++ "ms")
    none

/-- new ToolRetryExhaustedError(toolName, retries, lastError):
src/tool-execution.ts lines 14-20. -/
def ToolRetryExhaustedError.make (toolName : String) (retries : Nat)
    (lastError : JsError) : JsError :=
  JsError.mk ErrorClass.toolRetryExhausted
    ("Tool \"" ++ toolName ++ "\" failed after " ++ toString retries ++
      " retries. Last error: " ++ lastError.message)
    (some lastError)

/-- The test performed at line 66: error instanceof ToolTimeoutError. -/
def isToolTimeoutError (e : JsError) : Bool :=
  match e.cls with
  | ErrorClass.toolTimeout => true
  | _ => false

/-- The settlement behavior of one invocation of an asynchronous operation:
it settles at a given time with a success value or a thrown error, or it
never settles. A synchronous throw is a settlement at time 0 with an error. -/
inductive OpBehavior (α : Type) where
  | settles (time : Nat) (outcome : Except JsError α)
  | neverSettles

/-- executeWithTimeout, src/tool-execution.ts lines 22-42: race the
operation against the deadline timer. The operation wins exactly when it
settles strictly before the deadline; otherwise the timer rejection with a
ToolTimeoutError is observed first and the later settlement is ignored
(a promise resolves at most once). -/
def executeWithTimeout {α : Type} (op : OpBehavior α) (timeout : Nat)
    (toolName : String) : Except JsError α :=
  match op with
  | OpBehavior.settles t out =>
      if t < timeout then out
      else Except.error (ToolTimeoutError.make toolName timeout)
  | OpBehavior.neverSettles =>
      Except.error (ToolTimeoutError.make toolName timeout)

/-- The observable trace of one executeWithRetry run: the final result
(Except.error stands for the thrown error), the number of invocations of
the operation, and the backoff delays awaited, in order. -/
structure RetryTrace (α : Type) where
  result : Except JsError α
  attempts : Nat
  delays : List Nat

/-- The delay awaited at the top of the loop iteration for this attempt
index (src/tool-execution.ts lines 53-58): nothing before attempt 0, and
retryDelayMs * 2 ^ (attempt - 1) before every retry. -/
def backoffDelays (cfg : ToolExecutionConfig) (attempt : Nat) : List Nat :=
  if attempt = 0 then [] else [cfg.retryDelayMs * 2 ^ (attempt - 1)]

/-- The loop of executeWithRetry (src/tool-execution.ts lines 51-77), with
the attempt sequence of the operation given as fnB. The parameter remaining
counts the loop iterations still allowed after the current one, so the
source guard (attempt === config.retries) is remaining = 0; executeWithRetry
calls it with remaining = cfg.retries and attempt = 0. Each iteration:
await the backoff delay (recorded), run the attempt under the timeout
guard, return on success, and on failure either break — when the error is
an instanceof ToolTimeoutError or this was the last attempt — and throw
new ToolRetryExhaustedError(toolName, config.retries, lastError), or
continue with the next attempt. -/
def retryGo {α : Type} (fnB : Nat → OpBehavior α) (cfg : ToolExecutionConfig)
    (toolName : String) : Nat → Nat → RetryTrace α
  | remaining, attempt =>
    match executeWithTimeout (fnB attempt) cfg.timeoutMs toolName with
    | Except.ok v => ⟨Except.ok v, 1, backoffDelays cfg attempt⟩
    | Except.error e =>
      if isToolTimeoutError e then
        ⟨Except.error (ToolRetryExhaustedError.make toolName cfg.retries e), 1,
          backoffDelays cfg attempt⟩
      else
        match remaining with
        | 0 =>
            ⟨Except.error (ToolRetryExhaustedError.make toolName cfg.retries e), 1,
              backoffDelays cfg attempt⟩
        | r + 1 =>
            let rest := retryGo fnB cfg toolName r (attempt + 1)
            ⟨rest.result, rest.attempts + 1, backoffDelays cfg attempt ++ rest.delays⟩

/-- executeWithRetry, src/tool-execution.ts lines 44-77. -/
def executeWithRetry {α : Type} (fnB : Nat → OpBehavior α)
    (cfg : ToolExecutionConfig) (toolName : String) : RetryTrace α :=
  retryGo fnB cfg toolName cfg.retries 0

/-- The structured error-result object built at lines 175-181 of
src/tool-execution.ts. -/
structure ToolErrorSentinel where
  __toolError : Bool
  __errorType : String
  __errorMessage : String
  error : String
  success : Bool
deriving DecidableEq, Repr

/-- What the wrapped execute resolves to: the tool value on success, or the
sentinel object on terminal failure — never a rejection. -/
inductive WrappedOutcome (α : Type) where
  | value (v : α)
  | sentinel (s : ToolErrorSentinel)
deriving DecidableEq, Repr

/-- The try/catch of the wrapped execute (src/tool-execution.ts lines
161-183): a success value passes through; a thrown error is converted to
the sentinel with errorType = error.constructor.name and both message
fields from error.message. -/
def wrapOutcome {α : Type} : Except JsError α → WrappedOutcome α
  | Except.ok v => WrappedOutcome.value v
  | Except.error e =>
      WrappedOutcome.sentinel
        ⟨true, e.cls.ctorName, e.message, e.message, false⟩

/-- Partial ToolExecutionConfig: an absent field is one the per-tool record
does not mention. -/
structure PartialToolExecutionConfig where
  timeoutMs : Option Nat := none
  retries : Option Nat := none
  retryDelayMs : Option Nat := none
deriving DecidableEq, Repr

/-- The object spread at line 157 (and line 227):
braces ...global, ...override — a field of the override, when present,
shadows the global field; spreading an undefined override is a no-op. -/
def spreadConfig (g : ToolExecutionConfig)
    (p : Option PartialToolExecutionConfig) : ToolExecutionConfig :=
  match p with
  | none => g
  | some p =>
      ⟨p.timeoutMs.getD g.timeoutMs, p.retries.getD g.retries,
        p.retryDelayMs.getD g.retryDelayMs⟩

/-- The Tool interface (src/tool-execution.ts lines 131-137), with the zod
schema left opaque (type σ), the input type ι, and ρ the result type of
execute — for an unwrapped tool ρ is the per-attempt settlement behavior
of the returned promise. -/
structure Tool (σ ι ρ : Type) where
  description : String
  display_name : String
  inputSchema : σ
  execute : ι → ρ
  executionConfig : Option PartialToolExecutionConfig

/-- wrapToolWithTimeoutRetry, src/tool-execution.ts lines 151-185: merge the
global config with the per-tool config (per-tool takes priority), keep every
field of the tool except execute, and replace execute by the
retry-orchestrated, sentinel-converting operation. The original tool record
is not modified; a new record is built by spread. -/
def wrapToolWithTimeoutRetry {σ ι α : Type}
    (tool : Tool σ ι (Nat → OpBehavior α)) (toolName : String)
    (globalExecutionConfig : ToolExecutionConfig) :
    Tool σ ι (WrappedOutcome α) :=
  let finalExecutionConfig := spreadConfig globalExecutionConfig tool.executionConfig
  { description := tool.description
    display_name := tool.display_name
    inputSchema := tool.inputSchema
    execute := fun input =>
      wrapOutcome (executeWithRetry (tool.execute input) finalExecutionConfig toolName).result
    executionConfig := tool.executionConfig }

/-- DEFAULT_TOOL_EXECUTION_CONFIG, src/tool-execution.ts lines 206-210. -/
def DEFAULT_TOOL_EXECUTION_CONFIG : ToolExecutionConfig :=
  { timeoutMs := 30000, retries := 3, retryDelayMs := 1000 }

/-- The tool-wrapping part of makeAgentChatRouteConfig (src/tool-execution.ts
lines 227-233): merge the default config with the route-level override and
wrap every tool, keyed by its name, with the merged config. -/
def makeAgentChatRouteConfigTools {σ ι α : Type}
    (tools : List (String × Tool σ ι (Nat → OpBehavior α)))
    (toolExecutionConfig : Option PartialToolExecutionConfig) :
    List (String × Tool σ ι (WrappedOutcome α)) :=
  let finalExecutionConfig := spreadConfig DEFAULT_TOOL_EXECUTION_CONFIG toolExecutionConfig
  tools.map (fun p => (p.1, wrapToolWithTimeoutRetry p.2 p.1 finalExecutionConfig))

/-- Attempt i of the behavior, under the timeout guard, fails with an error
that is not an instanceof ToolTimeoutError. -/
def failsNonTimeout {α : Type} (fnB : Nat → OpBehavior α)
    (cfg : ToolExecutionConfig) (toolName : String) (i : Nat) : Prop :=
  ∃ e, executeWithTimeout (fnB i) cfg.timeoutMs toolName = Except.error e ∧
    isToolTimeoutError e = false

section Lemmas

variable {α : Type} (fnB : Nat → OpBehavior α) (cfg : ToolExecutionConfig)
  (toolName : String)

lemma retryGo_ok {remaining attempt : Nat} {v : α}
    (h : executeWithTimeout (fnB attempt) cfg.timeoutMs toolName = Except.ok v) :
    retryGo fnB cfg toolName remaining attempt =
      ⟨Except.ok v, 1, backoffDelays cfg attempt⟩ := by
  rw [retryGo, h]

lemma retryGo_timeout {remaining attempt : Nat} {e : JsError}
    (h : executeWithTimeout (fnB attempt) cfg.timeoutMs toolName = Except.error e)
    (ht : isToolTimeoutError e = true) :
    retryGo fnB cfg toolName remaining attempt =
      ⟨Except.error (ToolRetryExhaustedError.make toolName cfg.retries e), 1,
        backoffDelays cfg attempt⟩ := by
  rw [retryGo, h]
  simp [ht]

lemma retryGo_last {attempt : Nat} {e : JsError}
    (h : executeWithTimeout (fnB attempt) cfg.timeoutMs toolName = Except.error e)
    (ht : isToolTimeoutError e = false) :
    retryGo fnB cfg toolName 0 attempt =
      ⟨Except.error (ToolRetryExhaustedError.make toolName cfg.retries e), 1,
        backoffDelays cfg attempt⟩ := by
  rw [retryGo, h]
  simp [ht]

lemma retryGo_step {r attempt : Nat} {e : JsError}
    (h : executeWithTimeout (fnB attempt) cfg.timeoutMs toolName = Except.error e)
    (ht : isToolTimeoutError e = false) :
    retryGo fnB cfg toolName (r + 1) attempt =
      ⟨(retryGo fnB cfg toolName r (attempt + 1)).result,
        (retryGo fnB cfg toolName r (attempt + 1)).attempts + 1,
        backoffDelays cfg attempt ++ (retryGo fnB cfg toolName r (attempt + 1)).delays⟩ := by
  rw [retryGo, h]
  simp [ht]

lemma retryGo_attempts_pos (remaining attempt : Nat) :
    1 ≤ (retryGo fnB cfg toolName remaining attempt).attempts := by
  rw [retryGo]
  rcases h : executeWithTimeout (fnB attempt) cfg.timeoutMs toolName with e | v
  · by_cases ht : isToolTimeoutError e
    · simp [ht]
    · rcases remaining with _ | r <;> simp [ht]
  · simp

lemma retryGo_delays_succ (remaining : Nat) : ∀ a : Nat,
    (retryGo fnB cfg toolName remaining (a + 1)).delays =
      (List.range (retryGo fnB cfg toolName remaining (a + 1)).attempts).map
        (fun i => cfg.retryDelayMs * 2 ^ (a + i)) := by
  induction remaining with
  | zero =>
    intro a
    cases h : executeWithTimeout (fnB (a + 1)) cfg.timeoutMs toolName with
    | ok v =>
      rw [retryGo_ok fnB cfg toolName h]
      simp [backoffDelays, List.range_succ]
    | error e =>
      cases ht : isToolTimeoutError e with
      | true =>
        rw [retryGo_timeout fnB cfg toolName h ht]
        simp [backoffDelays, List.range_succ]
      | false =>
        rw [retryGo_last fnB cfg toolName h ht]
        simp [backoffDelays, List.range_succ]
  | succ r ih =>
    intro a
    cases h : executeWithTimeout (fnB (a + 1)) cfg.timeoutMs toolName with
    | ok v =>
      rw [retryGo_ok fnB cfg toolName h]
      simp [backoffDelays, List.range_succ]
    | error e =>
      cases ht : isToolTimeoutError e with
      | true =>
        rw [retryGo_timeout fnB cfg toolName h ht]
        simp [backoffDelays, List.range_succ]
      | false =>
        rw [retryGo_step fnB cfg toolName h ht]
        have hrest := ih (a + 1)
        show backoffDelays cfg (a + 1) ++ (retryGo fnB cfg toolName r (a + 1 + 1)).delays =
          (List.range ((retryGo fnB cfg toolName r (a + 1 + 1)).attempts + 1)).map
            (fun i => cfg.retryDelayMs * 2 ^ (a + i))
        rw [hrest, List.range_succ_eq_map, List.map_cons, List.map_map]
        have hb : backoffDelays cfg (a + 1) = [cfg.retryDelayMs * 2 ^ a] := by
          simp [backoffDelays]
        rw [hb]
        simp only [List.singleton_append, Nat.add_zero]
        congr 1
        apply List.map_congr_left
        intro i _
        simp only [Function.comp_apply]
        rw [show a + 1 + i = a + (i + 1) by omega]

lemma retryGo_delays_zero :
    (retryGo fnB cfg toolName cfg.retries 0).delays =
      (List.range ((retryGo fnB cfg toolName cfg.retries 0).attempts - 1)).map
        (fun i => cfg.retryDelayMs * 2 ^ i) := by
  cases h : executeWithTimeout (fnB 0) cfg.timeoutMs toolName with
  | ok v =>
    rw [retryGo_ok fnB cfg toolName h]
    simp [backoffDelays]
  | error e =>
    cases ht : isToolTimeoutError e with
    | true =>
      rw [retryGo_timeout fnB cfg toolName h ht]
      simp [backoffDelays]
    | false =>
      cases hr : cfg.retries with
      | zero =>
        rw [retryGo_last fnB cfg toolName h ht]
        simp [backoffDelays]
      | succ r =>
        rw [retryGo_step fnB cfg toolName h ht]
        have hrest := retryGo_delays_succ fnB cfg toolName r 0
        simp only [Nat.zero_add] at hrest
        show backoffDelays cfg 0 ++ (retryGo fnB cfg toolName r 1).delays =
          (List.range ((retryGo fnB cfg toolName r 1).attempts + 1 - 1)).map
            (fun i => cfg.retryDelayMs * 2 ^ i)
        rw [hrest]
        simp [backoffDelays]

lemma retryGo_allFail : ∀ remaining a : Nat,
    (∀ i, i ≤ remaining → failsNonTimeout fnB cfg toolName (a + i)) →
    (retryGo fnB cfg toolName remaining a).attempts = remaining + 1 ∧
    ∃ e, executeWithTimeout (fnB (a + remaining)) cfg.timeoutMs toolName = Except.error e ∧
      (retryGo fnB cfg toolName remaining a).result =
        Except.error (ToolRetryExhaustedError.make toolName cfg.retries e) := by
  intro remaining
  induction remaining with
  | zero =>
    intro a hfail
    obtain ⟨e, he, ht⟩ := hfail 0 (Nat.le_refl 0)
    rw [Nat.add_zero] at he
    rw [retryGo_last fnB cfg toolName he ht]
    exact ⟨rfl, e, by rw [Nat.add_zero]; exact he, rfl⟩
  | succ r ih =>
    intro a hfail
    obtain ⟨e, he, ht⟩ := hfail 0 (Nat.zero_le _)
    rw [Nat.add_zero] at he
    rw [retryGo_step fnB cfg toolName he ht]
    have hrest := ih (a + 1) (fun i hi => by
      have := hfail (i + 1) (by omega)
      rwa [show a + (i + 1) = a + 1 + i by omega] at this)
    obtain ⟨hatt, e2, he2, hres⟩ := hrest
    refine ⟨by simpa using hatt, e2, ?_, hres⟩
    rwa [show a + (r + 1) = a + 1 + r by omega]

lemma retryGo_succeedsAt : ∀ (k : Nat) (remaining a : Nat) (v : α),
    k ≤ remaining →
    (∀ i, i < k → failsNonTimeout fnB cfg toolName (a + i)) →
    executeWithTimeout (fnB (a + k)) cfg.timeoutMs toolName = Except.ok v →
    (retryGo fnB cfg toolName remaining a).attempts = k + 1 ∧
    (retryGo fnB cfg toolName remaining a).result = Except.ok v := by
  intro k
  induction k with
  | zero =>
    intro remaining a v _ _ hok
    rw [Nat.add_zero] at hok
    rw [retryGo_ok fnB cfg toolName hok]
    exact ⟨rfl, rfl⟩
  | succ k ih =>
    intro remaining a v hk hfail hok
    obtain ⟨e, he, ht⟩ := hfail 0 (Nat.succ_pos k)
    rw [Nat.add_zero] at he
    rcases remaining with _ | r
    · omega
    rw [retryGo_step fnB cfg toolName he ht]
    have hrest := ih r (a + 1) v (by omega)
      (fun i hi => by
        have := hfail (i + 1) (by omega)
        rwa [show a + (i + 1) = a + 1 + i by omega] at this)
      (by rwa [show a + 1 + k = a + (k + 1) by omega])
    exact ⟨by simpa using hrest.1, hrest.2⟩

lemma retryGo_timeoutAt : ∀ (j : Nat) (remaining a : Nat) (te : JsError),
    j ≤ remaining →
    (∀ i, i < j → failsNonTimeout fnB cfg toolName (a + i)) →
    executeWithTimeout (fnB (a + j)) cfg.timeoutMs toolName = Except.error te →
    isToolTimeoutError te = true →
    (retryGo fnB cfg toolName remaining a).attempts = j + 1 ∧
    (retryGo fnB cfg toolName remaining a).result =
      Except.error (ToolRetryExhaustedError.make toolName cfg.retries te) := by
  intro j
  induction j with
  | zero =>
    intro remaining a te _ _ hte ht
    rw [Nat.add_zero] at hte
    rw [retryGo_timeout fnB cfg toolName hte ht]
    exact ⟨rfl, rfl⟩
  | succ j ih =>
    intro remaining a te hj hfail hte ht
    obtain ⟨e, he, hent⟩ := hfail 0 (Nat.succ_pos j)
    rw [Nat.add_zero] at he
    rcases remaining with _ | r
    · omega
    rw [retryGo_step fnB cfg toolName he hent]
    have hrest := ih r (a + 1) te (by omega)
      (fun i hi => by
        have := hfail (i + 1) (by omega)
        rwa [show a + (i + 1) = a + 1 + i by omega] at this)
      (by rwa [show a + 1 + j = a + (j + 1) by omega]) ht
    exact ⟨by simpa using hrest.1, hrest.2⟩

end Lemmas

/-- The wrapped execute is the retry orchestrator run under the merged
config, converted by the try/catch to a value or a sentinel. -/
lemma wrapTool_execute_eq {σ ι α : Type} (tool : Tool σ ι (Nat → OpBehavior α))
    (toolName : String) (g : ToolExecutionConfig) (input : ι) :
    (wrapToolWithTimeoutRetry tool toolName g).execute input =
      wrapOutcome
        (executeWithRetry (tool.execute input) (spreadConfig g tool.executionConfig)
          toolName).result := rfl

/-- The operation settles strictly before the deadline. -/
def settlesBefore {α : Type} (op : OpBehavior α) (timeout : Nat) : Prop :=
  ∃ t out, op = OpBehavior.settles t out ∧ t < timeout

/-- Generic always-failing error value for concrete witnesses. -/
def boomError : JsError :=
  JsError.mk (ErrorClass.generic "Error") "boom" none

/-- Behavior that fails every attempt immediately with boomError. -/
def alwaysBoom : Nat → OpBehavior Nat :=
  fun _ => OpBehavior.settles 0 (Except.error boomError)

/-- Behavior that never settles on any attempt. -/
def neverB : Nat → OpBehavior Nat :=
  fun _ => OpBehavior.neverSettles

/-- Behavior that fails attempt 0 with boomError and succeeds with 42 from
attempt 1 on. -/
def failThenOk : Nat → OpBehavior Nat :=
  fun i =>
    if i = 0 then OpBehavior.settles 0 (Except.error boomError)
    else OpBehavior.settles 0 (Except.ok 42)

/-- A concrete tool whose operation resolves only after 500ms on every
attempt. -/
def slowTool : Tool Unit Unit (Nat → OpBehavior Nat) where
  description := "slow demo tool"
  display_name := "Slow"
  inputSchema := ()
  execute := fun _ _ => OpBehavior.settles 500 (Except.ok 1)
  executionConfig := none

/-- C7: the Timeout Guard propagates an operation outcome that settles
strictly before the deadline unchanged; when the operation does not settle
before the deadline (settles late or never), the guard fails with the
ToolTimeoutError carrying the label and the configured timeout; and the
guard yields exactly one outcome — in this embedding executeWithTimeout is
a total function of the behavior, so exactly one outcome is observed,
never both and never neither. -/
theorem executeWithTimeout_race {α : Type} (op : OpBehavior α) (timeout : Nat)
    (toolName : String) (_hpos : 0 < timeout) :
    (∀ t out, op = OpBehavior.settles t out → t < timeout →
      executeWithTimeout op timeout toolName = out) ∧
    (¬ settlesBefore op timeout →
      executeWithTimeout op timeout toolName =
        Except.error (ToolTimeoutError.make toolName timeout)) ∧
    (∃! r, executeWithTimeout op timeout toolName = r) := by
  refine ⟨?_, ?_, executeWithTimeout op timeout toolName, rfl, fun y hy => hy.symm⟩
  · rintro t out rfl hlt
    simp [executeWithTimeout, hlt]
  · intro hns
    cases op with
    | settles t out =>
      have hge : ¬ t < timeout := fun hlt => hns ⟨t, out, rfl, hlt⟩
      simp [executeWithTimeout, hge]
    | neverSettles => rfl

/-- Witness for C7 at concrete inputs: an operation settling at 50 with
value 7 under a 100ms deadline, so the guard propagates the success. -/
theorem executeWithTimeout_race_witness :
    ((∀ t out, (OpBehavior.settles 50 (Except.ok 7) : OpBehavior Nat) =
        OpBehavior.settles t out → t < 100 →
        executeWithTimeout (OpBehavior.settles 50 (Except.ok 7)) 100 "t" = out) ∧
      (¬ settlesBefore (OpBehavior.settles 50 (Except.ok 7) : OpBehavior Nat) 100 →
        executeWithTimeout (OpBehavior.settles 50 (Except.ok 7)) 100 "t" =
          Except.error (ToolTimeoutError.make "t" 100)) ∧
      (∃! r, executeWithTimeout (OpBehavior.settles 50 (Except.ok 7)) 100 "t" = r)) ∧
    executeWithTimeout (OpBehavior.settles 50 (Except.ok 7)) 100 "t" = Except.ok 7 :=
  ⟨executeWithTimeout_race (OpBehavior.settles 50 (Except.ok 7)) 100 "t" (by decide),
    rfl⟩

/-- C2: for every tool operation behavior (synchronously throwing = settles
at 0 with an error, rejecting, never settling, or succeeding), the wrapped
execute always yields a value, never a rejection: either the success value
of the orchestrated run, or a sentinel record with __toolError true, string
error fields, and success false. -/
theorem wrapTool_neverRejects {σ ι α : Type} (tool : Tool σ ι (Nat → OpBehavior α))
    (toolName : String) (g : ToolExecutionConfig) (input : ι) :
    (∃ v,
      (executeWithRetry (tool.execute input) (spreadConfig g tool.executionConfig)
        toolName).result = Except.ok v ∧
      (wrapToolWithTimeoutRetry tool toolName g).execute input =
        WrappedOutcome.value v) ∨
    (∃ e,
      (executeWithRetry (tool.execute input) (spreadConfig g tool.executionConfig)
        toolName).result = Except.error e ∧
      (wrapToolWithTimeoutRetry tool toolName g).execute input =
        WrappedOutcome.sentinel ⟨true, e.cls.ctorName, e.message, e.message, false⟩) := by
  rw [wrapTool_execute_eq]
  cases hres : (executeWithRetry (tool.execute input)
      (spreadConfig g tool.executionConfig) toolName).result with
  | ok v => exact Or.inl ⟨v, rfl, rfl⟩
  | error e => exact Or.inr ⟨e, rfl, rfl⟩

/-- C10: wrapping a tool preserves every field other than execute —
description, display_name, inputSchema and executionConfig are those of the
original tool. The original tool record is not mutated: the wrapper builds
a new record by spread and the embedding is pure, so the original value is
unchanged by construction. -/
theorem wrapTool_framePreservation {σ ι α : Type}
    (tool : Tool σ ι (Nat → OpBehavior α)) (toolName : String)
    (g : ToolExecutionConfig) :
    (wrapToolWithTimeoutRetry tool toolName g).description = tool.description ∧
    (wrapToolWithTimeoutRetry tool toolName g).display_name = tool.display_name ∧
    (wrapToolWithTimeoutRetry tool toolName g).inputSchema = tool.inputSchema ∧
    (wrapToolWithTimeoutRetry tool toolName g).executionConfig = tool.executionConfig :=
  ⟨rfl, rfl, rfl, rfl⟩

/-- C6: the effective config is the field-by-field spread of the per-tool
partial override over the global config (an absent override record leaves
the global config untouched); the global default is
timeoutMs 30000, retries 3, retryDelayMs 1000; merging an override of
retries 1 over that default yields timeoutMs 30000, retries 1,
retryDelayMs 1000; the wrapped execute hands exactly the merged config to
the retry orchestrator; and makeAgentChatRouteConfig wraps every tool with
the route override spread over the default. -/
theorem toolConfig_mergePrecedence :
    (∀ (g : ToolExecutionConfig) (p : PartialToolExecutionConfig),
      spreadConfig g (some p) =
        ⟨p.timeoutMs.getD g.timeoutMs, p.retries.getD g.retries,
          p.retryDelayMs.getD g.retryDelayMs⟩) ∧
    (∀ g : ToolExecutionConfig, spreadConfig g none = g) ∧
    DEFAULT_TOOL_EXECUTION_CONFIG = ⟨30000, 3, 1000⟩ ∧
    spreadConfig ⟨30000, 3, 1000⟩ (some { retries := some 1 }) = ⟨30000, 1, 1000⟩ ∧
    (∀ {σ ι α : Type} (tool : Tool σ ι (Nat → OpBehavior α)) (toolName : String)
      (g : ToolExecutionConfig) (input : ι),
      (wrapToolWithTimeoutRetry tool toolName g).execute input =
        wrapOutcome
          (executeWithRetry (tool.execute input)
            (spreadConfig g tool.executionConfig) toolName).result) ∧
    (∀ {σ ι α : Type} (tools : List (String × Tool σ ι (Nat → OpBehavior α)))
      (tec : Option PartialToolExecutionConfig),
      makeAgentChatRouteConfigTools tools tec =
        tools.map (fun p =>
          (p.1, wrapToolWithTimeoutRetry p.2 p.1
            (spreadConfig DEFAULT_TOOL_EXECUTION_CONFIG tec)))) :=
  ⟨fun _ _ => rfl, fun _ => rfl, rfl, rfl, fun _ _ _ _ => rfl, fun _ _ => rfl⟩

/-- C3: for every config and every operation failing each attempt with a
non-timeout failure, the retry orchestrator invokes the operation exactly
retries + 1 times and then produces a ToolRetryExhaustedError terminal
failure. -/
theorem executeWithRetry_retryCount {α : Type} (fnB : Nat → OpBehavior α)
    (cfg : ToolExecutionConfig) (toolName : String)
    (hfail : ∀ i, failsNonTimeout fnB cfg toolName i) :
    (executeWithRetry fnB cfg toolName).attempts = cfg.retries + 1 ∧
    ∃ e, (executeWithRetry fnB cfg toolName).result =
      Except.error (ToolRetryExhaustedError.make toolName cfg.retries e) := by
  obtain ⟨h1, e, _, h2⟩ :=
    retryGo_allFail fnB cfg toolName cfg.retries 0 (fun i _ => by simpa using hfail i)
  exact ⟨h1, e, h2⟩

/-- Witness for C3: an operation that always fails immediately with boom
under retries 2 is invoked exactly 3 times and ends in RetryExhausted. -/
theorem executeWithRetry_retryCount_witness :
    (executeWithRetry alwaysBoom ⟨1000, 2, 5⟩ "demo").attempts = 2 + 1 ∧
    ∃ e, (executeWithRetry alwaysBoom ⟨1000, 2, 5⟩ "demo").result =
      Except.error (ToolRetryExhaustedError.make "demo" 2 e) :=
  executeWithRetry_retryCount alwaysBoom ⟨1000, 2, 5⟩ "demo"
    (fun _ => ⟨boomError, rfl, rfl⟩)

/-- C4: for every config and every attempt sequence, the backoff delays
awaited, in order, are retryDelayMs * 2 ^ 0, retryDelayMs * 2 ^ 1, ... —
one per retry actually performed, so the delay before the n-th retry is
retryDelayMs * 2 ^ (n - 1); no delay precedes the first attempt: at least
one attempt is always made and the number of delays is one less than the
number of attempts. -/
theorem executeWithRetry_backoffSchedule {α : Type} (fnB : Nat → OpBehavior α)
    (cfg : ToolExecutionConfig) (toolName : String) :
    (executeWithRetry fnB cfg toolName).delays =
      (List.range ((executeWithRetry fnB cfg toolName).attempts - 1)).map
        (fun i => cfg.retryDelayMs * 2 ^ i) ∧
    1 ≤ (executeWithRetry fnB cfg toolName).attempts ∧
    (executeWithRetry fnB cfg toolName).delays.length =
      (executeWithRetry fnB cfg toolName).attempts - 1 := by
  refine ⟨retryGo_delays_zero fnB cfg toolName,
    retryGo_attempts_pos fnB cfg toolName cfg.retries 0, ?_⟩
  show (retryGo fnB cfg toolName cfg.retries 0).delays.length =
    (retryGo fnB cfg toolName cfg.retries 0).attempts - 1
  rw [retryGo_delays_zero fnB cfg toolName]
  simp

/-- C5: if attempts 0..k-1 fail with non-timeout failures and attempt k
(k at most retries) succeeds with v, the orchestrator makes exactly k + 1
attempts, its result is the success value v unchanged, and the wrapper
returns it unchanged as a plain value. -/
theorem executeWithRetry_successShortCircuit {α : Type} (fnB : Nat → OpBehavior α)
    (cfg : ToolExecutionConfig) (toolName : String) (k : Nat) (v : α)
    (hk : k ≤ cfg.retries)
    (hfail : ∀ i, i < k → failsNonTimeout fnB cfg toolName i)
    (hok : executeWithTimeout (fnB k) cfg.timeoutMs toolName = Except.ok v) :
    (executeWithRetry fnB cfg toolName).attempts = k + 1 ∧
    (executeWithRetry fnB cfg toolName).result = Except.ok v ∧
    wrapOutcome (executeWithRetry fnB cfg toolName).result = WrappedOutcome.value v := by
  obtain ⟨h1, h2⟩ := retryGo_succeedsAt fnB cfg toolName k cfg.retries 0 v hk
    (fun i hi => by simpa using hfail i hi) (by simpa using hok)
  refine ⟨h1, h2, ?_⟩
  show wrapOutcome (retryGo fnB cfg toolName cfg.retries 0).result =
    WrappedOutcome.value v
  rw [h2, wrapOutcome]

/-- Witness for C5: failing once with boom then succeeding with 42 under
retries 2 makes exactly 2 attempts and returns 42 unchanged. -/
theorem executeWithRetry_successShortCircuit_witness :
    (executeWithRetry failThenOk ⟨1000, 2, 10⟩ "t").attempts = 1 + 1 ∧
    (executeWithRetry failThenOk ⟨1000, 2, 10⟩ "t").result = Except.ok 42 ∧
    wrapOutcome (executeWithRetry failThenOk ⟨1000, 2, 10⟩ "t").result =
      WrappedOutcome.value 42 :=
  executeWithRetry_successShortCircuit failThenOk ⟨1000, 2, 10⟩ "t" 1 42
    (by decide)
    (fun i hi => by
      have h0 : i = 0 := by omega
      subst h0
      exact ⟨boomError, rfl, rfl⟩)
    rfl

/-- C8: once an attempt fails with a failure that is an instanceof
ToolTimeoutError (after non-timeout failures before it), the orchestrator
stops: exactly j + 1 invocations are made regardless of the remaining retry
budget and exactly j backoff delays were awaited, none after the timeout;
in particular an operation that never settles is invoked exactly once with
no backoff delay at all. -/
theorem executeWithRetry_timeoutEarlyExit {α : Type} (fnB : Nat → OpBehavior α)
    (cfg : ToolExecutionConfig) (toolName : String) :
    (∀ j te, j ≤ cfg.retries →
      (∀ i, i < j → failsNonTimeout fnB cfg toolName i) →
      executeWithTimeout (fnB j) cfg.timeoutMs toolName = Except.error te →
      isToolTimeoutError te = true →
      (executeWithRetry fnB cfg toolName).attempts = j + 1 ∧
      (executeWithRetry fnB cfg toolName).delays.length = j) ∧
    ((∀ i, fnB i = OpBehavior.neverSettles) →
      (executeWithRetry fnB cfg toolName).attempts = 1 ∧
      (executeWithRetry fnB cfg toolName).delays = []) := by
  have hlen : (executeWithRetry fnB cfg toolName).delays.length =
      (executeWithRetry fnB cfg toolName).attempts - 1 := by
    show (retryGo fnB cfg toolName cfg.retries 0).delays.length =
      (retryGo fnB cfg toolName cfg.retries 0).attempts - 1
    rw [retryGo_delays_zero fnB cfg toolName]
    simp
  constructor
  · intro j te hj hfail hte ht
    obtain ⟨h1, _⟩ := retryGo_timeoutAt fnB cfg toolName j cfg.retries 0 te hj
      (fun i hi => by simpa using hfail i hi) (by simpa using hte) ht
    refine ⟨h1, ?_⟩
    rw [hlen]
    show (retryGo fnB cfg toolName cfg.retries 0).attempts - 1 = j
    omega
  · intro hnever
    have hte : executeWithTimeout (fnB 0) cfg.timeoutMs toolName =
        Except.error (ToolTimeoutError.make toolName cfg.timeoutMs) := by
      rw [hnever 0]
      rfl
    obtain ⟨h1, _⟩ := retryGo_timeoutAt fnB cfg toolName 0 cfg.retries 0
      (ToolTimeoutError.make toolName cfg.timeoutMs) (Nat.zero_le _)
      (fun i hi => absurd hi (Nat.not_lt_zero i)) hte rfl
    refine ⟨h1, ?_⟩
    have : (executeWithRetry fnB cfg toolName).delays.length = 0 := by
      rw [hlen]
      show (retryGo fnB cfg toolName cfg.retries 0).attempts - 1 = 0
      omega
    exact List.length_eq_zero.mp this

/-- Witness for C8: a never-settling operation under retries 3 is invoked
exactly once with no backoff delay. -/
theorem executeWithRetry_timeoutEarlyExit_witness :
    (executeWithRetry neverB ⟨100, 3, 10⟩ "t").attempts = 1 ∧
    (executeWithRetry neverB ⟨100, 3, 10⟩ "t").delays = [] :=
  (executeWithRetry_timeoutEarlyExit neverB ⟨100, 3, 10⟩ "t").2 (fun _ => rfl)

/-- C1 counterexample: with config timeoutMs 100, retries 0, retryDelayMs 10
and an operation resolving only after 500ms, the wrapper returns a sentinel
whose __errorType is "ToolRetryExhaustedError" — not "ToolTimeoutError" as
the claim states: executeWithRetry wraps even a first-attempt timeout in a
ToolRetryExhaustedError before throwing (src/tool-execution.ts lines
66-76). -/
theorem wrapTool_firstTimeout_counterexample :
    (wrapToolWithTimeoutRetry slowTool "slow" ⟨100, 0, 10⟩).execute () =
      WrappedOutcome.sentinel
        ⟨true, "ToolRetryExhaustedError",
          "Tool \"slow\" failed after 0 retries. Last error: Tool \"slow\" timed out after 100ms",
          "Tool \"slow\" failed after 0 retries. Last error: Tool \"slow\" timed out after 100ms",
          false⟩ ∧
    ("ToolRetryExhaustedError" : String) ≠ "ToolTimeoutError" := by
  exact ⟨by decide, by decide⟩

/-- C1 amended: when the first attempt of an orchestrated tool invocation
fails with a Timeout failure, the orchestrator still stops immediately
(one attempt), but the terminal failure reaching the wrapper is a
ToolRetryExhaustedError wrapping the timeout as its last error and cause,
so the sentinel the wrapper returns has __errorType
"ToolRetryExhaustedError" and both message fields equal to that wrapping
error's message (which embeds the timeout message). -/
theorem wrapTool_firstTimeout_sentinel {σ ι α : Type}
    (tool : Tool σ ι (Nat → OpBehavior α)) (toolName : String)
    (g : ToolExecutionConfig) (input : ι) (te : JsError)
    (hte : executeWithTimeout (tool.execute input 0)
      (spreadConfig g tool.executionConfig).timeoutMs toolName = Except.error te)
    (ht : isToolTimeoutError te = true) :
    (executeWithRetry (tool.execute input) (spreadConfig g tool.executionConfig)
      toolName).attempts = 1 ∧
    (wrapToolWithTimeoutRetry tool toolName g).execute input =
      WrappedOutcome.sentinel
        ⟨true, "ToolRetryExhaustedError",
          (ToolRetryExhaustedError.make toolName
            (spreadConfig g tool.executionConfig).retries te).message,
          (ToolRetryExhaustedError.make toolName
            (spreadConfig g tool.executionConfig).retries te).message,
          false⟩ ∧
    (ToolRetryExhaustedError.make toolName
      (spreadConfig g tool.executionConfig).retries te).cause = some te := by
  obtain ⟨h1, h2⟩ := retryGo_timeoutAt (tool.execute input)
    (spreadConfig g tool.executionConfig) toolName 0
    (spreadConfig g tool.executionConfig).retries 0 te (Nat.zero_le _)
    (fun i hi => absurd hi (Nat.not_lt_zero i)) hte ht
  refine ⟨h1, ?_, rfl⟩
  rw [wrapTool_execute_eq]
  show wrapOutcome (retryGo (tool.execute input) (spreadConfig g tool.executionConfig)
    toolName (spreadConfig g tool.executionConfig).retries 0).result = _
  rw [h2, wrapOutcome]
  rfl

/-- Witness for C1 amended: the slow tool under timeoutMs 100, retries 0
times out on its first attempt and the sentinel carries the wrapping
RetryExhausted message. -/
theorem wrapTool_firstTimeout_sentinel_witness :
    (executeWithRetry (slowTool.execute ())
      (spreadConfig ⟨100, 0, 10⟩ slowTool.executionConfig) "slow").attempts = 1 ∧
    (wrapToolWithTimeoutRetry slowTool "slow" ⟨100, 0, 10⟩).execute () =
      WrappedOutcome.sentinel
        ⟨true, "ToolRetryExhaustedError",
          (ToolRetryExhaustedError.make "slow"
            (spreadConfig ⟨100, 0, 10⟩ slowTool.executionConfig).retries
            (ToolTimeoutError.make "slow" 100)).message,
          (ToolRetryExhaustedError.make "slow"
            (spreadConfig ⟨100, 0, 10⟩ slowTool.executionConfig).retries
            (ToolTimeoutError.make "slow" 100)).message,
          false⟩ ∧
    (ToolRetryExhaustedError.make "slow"
      (spreadConfig ⟨100, 0, 10⟩ slowTool.executionConfig).retries
      (ToolTimeoutError.make "slow" 100)).cause =
        some (ToolTimeoutError.make "slow" 100) :=
  wrapTool_firstTimeout_sentinel slowTool "slow" ⟨100, 0, 10⟩ ()
    (ToolTimeoutError.make "slow" 100) rfl rfl

/-- C9 counterexample: under config timeoutMs 100, retries 2, retryDelayMs 5
a never-settling operation makes exactly one attempt — zero retries actually
attempted — yet the produced RetryExhausted failure wraps the configured
count 2, and the failure wrapping 2 differs from the one wrapping the
actually-attempted 0, so the claim that the failure wraps the total retry
count actually attempted is false. -/
theorem retryExhausted_retryCount_counterexample :
    (executeWithRetry neverB ⟨100, 2, 5⟩ "t").attempts = 1 ∧
    (executeWithRetry neverB ⟨100, 2, 5⟩ "t").result =
      Except.error (ToolRetryExhaustedError.make "t" 2 (ToolTimeoutError.make "t" 100)) ∧
    (ToolRetryExhaustedError.make "t" 2 (ToolTimeoutError.make "t" 100)).message ≠
      (ToolRetryExhaustedError.make "t" 0 (ToolTimeoutError.make "t" 100)).message := by
  refine ⟨rfl, rfl, by decide⟩

/-- C9 amended: every exhaustion run (all attempts failing with non-timeout
failures) produces a RetryExhausted failure wrapping the tool label, the
configured retry count — which in this exhaustion case equals the retries
actually attempted (attempts minus one) — and the last underlying failure
as message and cause. (On a timeout early exit the wrapped count is still
the configured one, not the count actually attempted.) -/
theorem retryExhausted_wrapsLabelCountLastError {α : Type}
    (fnB : Nat → OpBehavior α) (cfg : ToolExecutionConfig) (toolName : String)
    (hfail : ∀ i, failsNonTimeout fnB cfg toolName i) :
    ∃ last,
      executeWithTimeout (fnB cfg.retries) cfg.timeoutMs toolName =
        Except.error last ∧
      (executeWithRetry fnB cfg toolName).result =
        Except.error (ToolRetryExhaustedError.make toolName cfg.retries last) ∧
      (ToolRetryExhaustedError.make toolName cfg.retries last).cause = some last ∧
      (executeWithRetry fnB cfg toolName).attempts - 1 = cfg.retries := by
  obtain ⟨h1, e, he, h2⟩ :=
    retryGo_allFail fnB cfg toolName cfg.retries 0 (fun i _ => by simpa using hfail i)
  rw [Nat.zero_add] at he
  refine ⟨e, he, h2, rfl, ?_⟩
  show (retryGo fnB cfg toolName cfg.retries 0).attempts - 1 = cfg.retries
  omega

/-- Witness for C9 amended: the always-boom operation under retries 2
produces the RetryExhausted failure wrapping label t, count 2 and the boom
failure, whose message references boom and the retry count. -/
theorem retryExhausted_wrapsLabelCountLastError_witness :
    (∃ last,
      executeWithTimeout (alwaysBoom 2) 1000 "t" = Except.error last ∧
      (executeWithRetry alwaysBoom ⟨1000, 2, 5⟩ "t").result =
        Except.error (ToolRetryExhaustedError.make "t" 2 last) ∧
      (ToolRetryExhaustedError.make "t" 2 last).cause = some last ∧
      (executeWithRetry alwaysBoom ⟨1000, 2, 5⟩ "t").attempts - 1 = 2) ∧
    (ToolRetryExhaustedError.make "t" 2 boomError).message =
      "Tool \"t\" failed after 2 retries. Last error: boom" :=
  ⟨retryExhausted_wrapsLabelCountLastError alwaysBoom ⟨1000, 2, 5⟩ "t"
      (fun _ => ⟨boomError, rfl, rfl⟩),
    by decide⟩

end ToolExec
